import Mathlib

/-!
Verification of the model-listing script (`src/list_models.py`).

The script brings in the vendor SDK (`anthropic`) and the `os` module,
then runs:

  client = Anthropic(api_key=os.getenv(ANTHROPIC_API_KEY))
  for m in client.models.list().model_data:
      print(m[id])

We embed the script as a total function `run` from a process environment
and an abstract model of the vendor SDK to a run result (stdout lines,
exit code, diagnostic) together with a trace of observable effects.
The vendor SDK (the `anthropic` package) is not part of this repository,
so its interface is modelled abstractly: client construction and the
list-models call are functions supplied as parameters, each allowed to
fail with an error from the failure classes named by the spec.
-/

namespace ListModels

/-- A process environment: a finite map from variable names to values. -/
abbrev EnvMap := List (String × String)

/-- Embedding of Python `os.getenv`: look the name up in the process
environment, `none` when the variable is absent. -/
def getenv (env : EnvMap) (name : String) : Option String :=
  List.lookup name env

/-- The single credential variable the script reads. -/
def apiKeyVar : String := "ANTHROPIC_API_KEY"

/-- A model record as the script consumes it: a JSON object, i.e. a finite
map of string attributes. The script subscripts it with the key "id". -/
abbrev ModelRecord := List (String × String)

/-- Parameters a list-models call could carry (pagination cursor,
filters). The script passes none of them. -/
structure ListParams where
  cursor : Option String
  filters : List (String × String)
deriving DecidableEq

/-- The script calls `client.models.list()` with no arguments. -/
def noParams : ListParams := ⟨none, []⟩

/-- Modelled from the spec: the failure classes of the vendor SDK
(missing/invalid credential, network failure, authorization failure,
malformed response), each carrying the diagnostic text the SDK produces. -/
inductive SdkError where
  | missingCredential : String → SdkError
  | invalidCredential : String → SdkError
  | networkFailure : String → SdkError
  | authorizationFailure : String → SdkError
  | malformedResponse : String → SdkError
deriving DecidableEq

/-- The diagnostic text carried by an SDK error. -/
def SdkError.msg : SdkError → String
  | .missingCredential s => s
  | .invalidCredential s => s
  | .networkFailure s => s
  | .authorizationFailure s => s
  | .malformedResponse s => s

/-- The response of the list-models call; `model_data` is the field the
script iterates over. -/
structure ListResponse where
  model_data : List ModelRecord
deriving DecidableEq

/-- Modelled from the spec: the vendor SDK (the `anthropic` package,
absent from this repository). `construct` is client construction from the
credential passed as `api_key`; `listModels` is the remote list-models
call made by the constructed client, taking the stored credential and the
call parameters. Either can fail with an SDK error. -/
structure SdkModel where
  construct : Option String → Except SdkError Unit
  listModels : Option String → ListParams → Except SdkError ListResponse

/-- Observable effects a run of the script could perform. The trace of a
run records, in order, every environment-variable read, network call, and
write to any stream or file. -/
inductive Effect where
  | readEnvVar : String → Effect
  | netCall : ListParams → Effect
  | writeStdout : String → Effect
  | writeStderr : String → Effect
  | writeFile : String → String → Effect
deriving DecidableEq

/-- Whether an effect is an environment-variable read. -/
def Effect.isReadEnvVar : Effect → Bool
  | .readEnvVar _ => true
  | _ => false

/-- Whether an effect is a network call. -/
def Effect.isNetCall : Effect → Bool
  | .netCall _ => true
  | _ => false

/-- Whether an effect is a write to standard output. -/
def Effect.isWriteStdout : Effect → Bool
  | .writeStdout _ => true
  | _ => false

/-- Whether an effect writes to a stream other than standard output or to
a file / persistent store. -/
def Effect.isExternalWrite : Effect → Bool
  | .writeStderr _ => true
  | .writeFile _ _ => true
  | _ => false

/-- The outcome of a run at the process boundary: the lines written to
standard output, the exit code (0 on success, 1 when an uncaught failure
terminates the interpreter), and the diagnostic text of that failure. -/
structure RunResult where
  stdout : List String
  exitCode : Nat
  diagnostic : Option String
deriving DecidableEq

/-- Diagnostic raised by `m['id']` when a record lacks the key. -/
def keyErrorId : String := "KeyError: id"

/-- Embedding of the for loop `for m in ...: print(m['id'])`. Returns the
lines printed, the records visited (in order), and the diagnostic of the
uncaught failure if a record lacks an "id" key; iteration stops at the
first such record, exactly as the Python loop would. -/
def printLoop : List ModelRecord → List String × List ModelRecord × Option String
  | [] => ([], [], none)
  | m :: rest =>
    match List.lookup "id" m with
    | none => ([], [m], some keyErrorId)
    | some i =>
      let r := printLoop rest
      (i :: r.1, m :: r.2.1, r.2.2)

/-- Embedding of the whole script. Reads the credential variable once,
constructs the client, makes the single list-models call with no
parameters, and iterates the returned records printing each "id" field.
Any failure propagates uncaught: the run ends with exit code 1, the
failure's own diagnostic, and no further output. The second component is
the effect trace of the run. -/
def run (env : EnvMap) (sdk : SdkModel) : RunResult × List Effect :=
  let key := getenv env apiKeyVar
  match sdk.construct key with
  | .error e =>
      ({ stdout := [], exitCode := 1, diagnostic := some e.msg },
       [Effect.readEnvVar apiKeyVar])
  | .ok _ =>
      match sdk.listModels key noParams with
      | .error e =>
          ({ stdout := [], exitCode := 1, diagnostic := some e.msg },
           [Effect.readEnvVar apiKeyVar, Effect.netCall noParams])
      | .ok resp =>
          let r := printLoop resp.model_data
          ({ stdout := r.1,
             exitCode := match r.2.2 with | none => 0 | some _ => 1,
             diagnostic := r.2.2 },
           Effect.readEnvVar apiKeyVar :: Effect.netCall noParams
             :: r.1.map Effect.writeStdout)

/-! Concrete instances used by witnesses and the counterexample. -/

/-- A record with identifier "claude-3-opus" and extra attributes. -/
def opusRec : ModelRecord := [("id", "claude-3-opus"), ("created_at", "2024-02-29")]

/-- A record with identifier "claude-3-sonnet" and extra attributes. -/
def sonnetRec : ModelRecord := [("id", "claude-3-sonnet"), ("created_at", "2024-02-29")]

/-- Same identifier as `opusRec`, different extra attributes. -/
def opusRecAlt : ModelRecord := [("id", "claude-3-opus"), ("display_name", "Claude 3 Opus")]

/-- Same identifier as `sonnetRec`, different extra attributes. -/
def sonnetRecAlt : ModelRecord := [("id", "claude-3-sonnet"), ("type", "model")]

/-- A credential-checking SDK returning two model records. -/
def sdkTwoModels : SdkModel where
  construct := fun k =>
    match k with
    | none => Except.error (SdkError.missingCredential "Could not resolve authentication method")
    | some _ => Except.ok ()
  listModels := fun k _ =>
    match k with
    | none => Except.error (SdkError.authorizationFailure "401 authentication_error")
    | some _ => Except.ok ⟨[opusRec, sonnetRec]⟩

/-- Like `sdkTwoModels` but the records differ in non-identifier
attributes. -/
def sdkTwoModelsAlt : SdkModel where
  construct := fun k =>
    match k with
    | none => Except.error (SdkError.missingCredential "Could not resolve authentication method")
    | some _ => Except.ok ()
  listModels := fun k _ =>
    match k with
    | none => Except.error (SdkError.authorizationFailure "401 authentication_error")
    | some _ => Except.ok ⟨[opusRecAlt, sonnetRecAlt]⟩

/-- An SDK returning an empty model list. -/
def sdkEmptyList : SdkModel where
  construct := fun _ => Except.ok ()
  listModels := fun _ _ => Except.ok ⟨[]⟩

/-- An SDK whose list-models call fails with a network error. -/
def sdkNetworkDown : SdkModel where
  construct := fun _ => Except.ok ()
  listModels := fun _ _ => Except.error (SdkError.networkFailure "connection refused")

/-- An environment carrying the credential variable among others. -/
def envWithKey : EnvMap := [("HOME", "/root"), ("ANTHROPIC_API_KEY", "sk-test")]

/-- Another environment agreeing with `envWithKey` on the credential
variable and differing elsewhere. -/
def envWithKeyAlt : EnvMap := [("PATH", "/usr/bin"), ("ANTHROPIC_API_KEY", "sk-test"), ("LANG", "C")]

/-- An environment without the credential variable. -/
def envNoKey : EnvMap := [("HOME", "/root"), ("PATH", "/usr/bin")]

/-! Helper lemmas about `printLoop` and traces. -/

/-- When the records' "id" lookups are exactly `ids`, the loop prints
`ids`, visits every record, and raises nothing. -/
theorem printLoop_of_ids (rs : List ModelRecord) (ids : List String)
    (h : rs.map (List.lookup "id") = ids.map some) :
    printLoop rs = (ids, rs, none) := by
  induction rs generalizing ids with
  | nil =>
    cases ids with
    | nil => rfl
    | cons i is => simp at h
  | cons m rest ih =>
    cases ids with
    | nil => simp at h
    | cons i is =>
      rw [List.map_cons, List.map_cons] at h
      injection h with h1 h2
      simp [printLoop, h1, ih is h2]

/-- The lines printed and the failure raised by the loop depend only on
the records' "id" lookups. -/
theorem printLoop_congr_ids (rs1 rs2 : List ModelRecord)
    (h : rs1.map (List.lookup "id") = rs2.map (List.lookup "id")) :
    (printLoop rs1).1 = (printLoop rs2).1 ∧ (printLoop rs1).2.2 = (printLoop rs2).2.2 := by
  induction rs1 generalizing rs2 with
  | nil =>
    cases rs2 with
    | nil => exact ⟨rfl, rfl⟩
    | cons b bs => simp at h
  | cons a as ih =>
    cases rs2 with
    | nil => simp at h
    | cons b bs =>
      rw [List.map_cons, List.map_cons] at h
      injection h with h1 h2
      obtain ⟨e1, e2⟩ := ih bs h2
      cases hb : List.lookup "id" b with
      | none => simp [printLoop, h1, hb]
      | some i => simp [printLoop, h1, hb, e1, e2]

/-- A predicate false on stdout writes filters a stdout-write trace to
nothing. -/
theorem filter_map_writeStdout (p : Effect → Bool)
    (hp : ∀ s, p (Effect.writeStdout s) = false) (ls : List String) :
    (ls.map Effect.writeStdout).filter p = [] := by
  induction ls with
  | nil => rfl
  | cons a as ih => simp [List.filter, hp, ih]

/-! Claim theorems. -/

/-- C1: for an API response of N model records whose identifier fields
are i1, ..., iN, the run prints exactly those N identifiers to standard
output, one per line, in the order returned, each line containing exactly
the identifier and nothing else, and exits with status 0. -/
theorem run_prints_each_identifier_in_order
    (env : EnvMap) (sdk : SdkModel) (rs : List ModelRecord) (ids : List String)
    (hc : sdk.construct (getenv env apiKeyVar) = Except.ok ())
    (hl : sdk.listModels (getenv env apiKeyVar) noParams = Except.ok ⟨rs⟩)
    (hid : rs.map (List.lookup "id") = ids.map some) :
    (run env sdk).1.stdout = ids ∧ (run env sdk).1.stdout.length = ids.length ∧
      (run env sdk).1.exitCode = 0 := by
  have hp := printLoop_of_ids rs ids hid
  simp [run, hc, hl, hp]

/-- Witness for C1: with the credential set and the API returning records
whose identifiers are "claude-3-opus" and "claude-3-sonnet", stdout is
exactly those two lines in order and the exit code is 0. -/
theorem run_prints_each_identifier_in_order_witness :
    (run envWithKey sdkTwoModels).1.stdout = ["claude-3-opus", "claude-3-sonnet"] ∧
      (run envWithKey sdkTwoModels).1.stdout.length = 2 ∧
      (run envWithKey sdkTwoModels).1.exitCode = 0 :=
  run_prints_each_identifier_in_order envWithKey sdkTwoModels
    [opusRec, sonnetRec] ["claude-3-opus", "claude-3-sonnet"]
    (by rfl) (by rfl) (by rfl)

/-- C2: when the API response is an empty model list, the run prints zero
lines and exits with status 0 (and no diagnostic). -/
theorem run_empty_model_list (env : EnvMap) (sdk : SdkModel)
    (hc : sdk.construct (getenv env apiKeyVar) = Except.ok ())
    (hl : sdk.listModels (getenv env apiKeyVar) noParams = Except.ok ⟨[]⟩) :
    (run env sdk).1 = { stdout := [], exitCode := 0, diagnostic := none } := by
  simp [run, hc, hl, printLoop]

/-- Witness for C2: a concrete SDK returning the empty list. -/
theorem run_empty_model_list_witness :
    (run envWithKey sdkEmptyList).1 = { stdout := [], exitCode := 0, diagnostic := none } :=
  run_empty_model_list envWithKey sdkEmptyList (by rfl) (by rfl)

/-- Modelled from the spec: an SDK that rejects a missing credential,
either at client construction (configuration error) or at the remote call
(authentication error) — the two behaviors the spec allows. -/
def RejectsMissingKey (sdk : SdkModel) : Prop :=
  (∃ e, sdk.construct none = Except.error e) ∨
    ∀ p, ∃ e, sdk.listModels none p = Except.error e

/-- C3: when ANTHROPIC_API_KEY is absent from the process environment and
the SDK rejects a missing credential (at construction or at the call, as
the spec describes), the run prints no model identifiers and exits with a
non-zero status. -/
theorem run_missing_key_fails (env : EnvMap) (sdk : SdkModel)
    (henv : getenv env apiKeyVar = none) (hrej : RejectsMissingKey sdk) :
    (run env sdk).1.stdout = [] ∧ (run env sdk).1.exitCode ≠ 0 := by
  cases hc : sdk.construct none with
  | error e => simp [run, henv, hc]
  | ok u =>
    rcases hrej with ⟨e, he⟩ | hall
    · rw [hc] at he
      exact absurd he (by simp)
    · obtain ⟨e, he⟩ := hall noParams
      simp [run, henv, hc, he]

/-- Witness for C3: an environment without the credential variable and a
credential-checking SDK. -/
theorem run_missing_key_fails_witness :
    (run envNoKey sdkTwoModels).1.stdout = [] ∧ (run envNoKey sdkTwoModels).1.exitCode ≠ 0 :=
  run_missing_key_fails envNoKey sdkTwoModels (by rfl) (Or.inl ⟨_, by rfl⟩)

/-- C4: when the remote list-models call fails for any reason, the run
exits with a non-zero status and writes nothing to standard output — its
effect trace contains no stdout write at all, since printing begins only
after the call has succeeded. -/
theorem run_call_failure_prints_nothing (env : EnvMap) (sdk : SdkModel) (e : SdkError)
    (hc : sdk.construct (getenv env apiKeyVar) = Except.ok ())
    (hl : sdk.listModels (getenv env apiKeyVar) noParams = Except.error e) :
    (run env sdk).1.stdout = [] ∧ (run env sdk).1.exitCode ≠ 0 ∧
      (run env sdk).2.filter Effect.isWriteStdout = [] := by
  simp [run, hc, hl, List.filter, Effect.isWriteStdout]

/-- Witness for C4: a concrete SDK whose call fails with a network error. -/
theorem run_call_failure_prints_nothing_witness :
    (run envWithKey sdkNetworkDown).1.stdout = [] ∧
      (run envWithKey sdkNetworkDown).1.exitCode ≠ 0 ∧
      (run envWithKey sdkNetworkDown).2.filter Effect.isWriteStdout = [] :=
  run_call_failure_prints_nothing envWithKey sdkNetworkDown
    (SdkError.networkFailure "connection refused") (by rfl) (by rfl)

/-- C5: every failure class (missing or invalid credential, network
failure, authorization failure, malformed response), whether raised at
client construction or at the remote call, propagates uncaught to the
process boundary: the run ends with exit code 1, carries exactly the
SDK error's own diagnostic text untranslated, and prints nothing. -/
theorem run_failure_propagates_untranslated (env : EnvMap) (sdk : SdkModel) (e : SdkError)
    (h : sdk.construct (getenv env apiKeyVar) = Except.error e ∨
      (sdk.construct (getenv env apiKeyVar) = Except.ok () ∧
        sdk.listModels (getenv env apiKeyVar) noParams = Except.error e)) :
    (run env sdk).1 = { stdout := [], exitCode := 1, diagnostic := some e.msg } := by
  rcases h with hc | ⟨hc, hl⟩
  · simp [run, hc]
  · simp [run, hc, hl]

/-- Witness for C5: the network-failure SDK terminates the run with exit
code 1 and its own diagnostic. -/
theorem run_failure_propagates_untranslated_witness :
    (run envWithKey sdkNetworkDown).1 =
      { stdout := [], exitCode := 1, diagnostic := some "connection refused" } :=
  run_failure_propagates_untranslated envWithKey sdkNetworkDown
    (SdkError.networkFailure "connection refused") (Or.inr ⟨by rfl, by rfl⟩)

/-- C6 counterexample: it is not true that on every run the list-models
operation is invoked exactly once. On a run where client construction
fails (credential variable absent, credential-checking SDK), the effect
trace contains zero network calls, so the claim fails at this concrete
input. -/
theorem run_not_always_one_call :
    (run envNoKey sdkTwoModels).2.filter Effect.isNetCall ≠ [Effect.netCall noParams] := by
  decide

/-- C6 (amended): on every run the script invokes the list-models
operation at most once, always with no parameters (no pagination cursor,
no filters) and with no retry or backoff; it invokes it exactly once
whenever client construction succeeds (and zero times when construction
itself fails). -/
theorem run_calls_list_at_most_once (env : EnvMap) (sdk : SdkModel) :
    ((run env sdk).2.filter Effect.isNetCall = [] ∨
      (run env sdk).2.filter Effect.isNetCall = [Effect.netCall noParams]) ∧
    (sdk.construct (getenv env apiKeyVar) = Except.ok () →
      (run env sdk).2.filter Effect.isNetCall = [Effect.netCall noParams]) := by
  have hmap := filter_map_writeStdout Effect.isNetCall (fun _ => rfl)
  cases hc : sdk.construct (getenv env apiKeyVar) with
  | error e =>
    refine ⟨Or.inl ?_, fun h => ?_⟩
    · simp [run, hc, List.filter, Effect.isNetCall]
    · exact Except.noConfusion h
  | ok u =>
    cases u
    cases hl : sdk.listModels (getenv env apiKeyVar) noParams with
    | error e =>
      refine ⟨Or.inr ?_, fun _ => ?_⟩ <;>
        simp [run, hc, hl, List.filter, Effect.isNetCall]
    | ok resp =>
      refine ⟨Or.inr ?_, fun _ => ?_⟩ <;>
        simp [run, hc, hl, List.filter, Effect.isNetCall, hmap]

/-- Witness for C6 (amended): with the credential set and a successful
construction, the trace holds exactly one parameterless network call. -/
theorem run_calls_list_at_most_once_witness :
    (run envWithKey sdkEmptyList).2.filter Effect.isNetCall = [Effect.netCall noParams] :=
  (run_calls_list_at_most_once envWithKey sdkEmptyList).2 (by rfl)

/-- C7: every run reads exactly one environment variable, the credential
variable, once at startup (the trace's environment reads are exactly one
read of ANTHROPIC_API_KEY), and two environments agreeing on that
variable produce identical runs — result and effect trace — against the
same SDK. -/
theorem run_reads_only_api_key (env1 env2 : EnvMap) (sdk : SdkModel) :
    (run env1 sdk).2.filter Effect.isReadEnvVar = [Effect.readEnvVar apiKeyVar] ∧
    (getenv env1 apiKeyVar = getenv env2 apiKeyVar → run env1 sdk = run env2 sdk) := by
  constructor
  · have hmap := filter_map_writeStdout Effect.isReadEnvVar (fun _ => rfl)
    cases hc : sdk.construct (getenv env1 apiKeyVar) with
    | error e => simp [run, hc, List.filter, Effect.isReadEnvVar]
    | ok u =>
      cases u
      cases hl : sdk.listModels (getenv env1 apiKeyVar) noParams with
      | error e => simp [run, hc, hl, List.filter, Effect.isReadEnvVar]
      | ok resp => simp [run, hc, hl, List.filter, Effect.isReadEnvVar, hmap]
  · intro h
    simp only [run]
    rw [h]

/-- Witness for C7: two environments differing everywhere except the
credential variable yield the same run. -/
theorem run_reads_only_api_key_witness :
    run envWithKey sdkTwoModels = run envWithKeyAlt sdkTwoModels :=
  (run_reads_only_api_key envWithKey envWithKeyAlt sdkTwoModels).2 (by rfl)

/-- C8: only the identifier field of each record is consumed: two API
responses whose records agree on their "id" lookups, however much their
other attributes differ, give runs with identical standard output and
identical exit codes. -/
theorem run_output_depends_only_on_identifiers
    (env : EnvMap) (sdk1 sdk2 : SdkModel) (rs1 rs2 : List ModelRecord)
    (hc1 : sdk1.construct (getenv env apiKeyVar) = Except.ok ())
    (hc2 : sdk2.construct (getenv env apiKeyVar) = Except.ok ())
    (hl1 : sdk1.listModels (getenv env apiKeyVar) noParams = Except.ok ⟨rs1⟩)
    (hl2 : sdk2.listModels (getenv env apiKeyVar) noParams = Except.ok ⟨rs2⟩)
    (hid : rs1.map (List.lookup "id") = rs2.map (List.lookup "id")) :
    (run env sdk1).1.stdout = (run env sdk2).1.stdout ∧
      (run env sdk1).1.exitCode = (run env sdk2).1.exitCode := by
  obtain ⟨e1, e2⟩ := printLoop_congr_ids rs1 rs2 hid
  constructor
  · simp [run, hc1, hc2, hl1, hl2, e1]
  · simp [run, hc1, hc2, hl1, hl2, e2]

/-- Witness for C8: two responses with the same identifiers but different
extra attributes produce the same stdout and exit code. -/
theorem run_output_depends_only_on_identifiers_witness :
    (run envWithKey sdkTwoModels).1.stdout = (run envWithKey sdkTwoModelsAlt).1.stdout ∧
      (run envWithKey sdkTwoModels).1.exitCode = (run envWithKey sdkTwoModelsAlt).1.exitCode :=
  run_output_depends_only_on_identifiers envWithKey sdkTwoModels sdkTwoModelsAlt
    [opusRec, sonnetRec] [opusRecAlt, sonnetRecAlt]
    (by rfl) (by rfl) (by rfl) (by rfl) (by decide)

/-- C9: the only side effects of any run are the network I/O of the one
remote call and writes to standard output (besides the sanctioned read of
the credential variable): the effect trace contains no write to any other
stream, file, or persistent store, and every effect in it is an
environment read, a network call, or a stdout write. -/
theorem run_effects_only_net_and_stdout (env : EnvMap) (sdk : SdkModel) :
    (run env sdk).2.filter Effect.isExternalWrite = [] ∧
    (run env sdk).2.all
      (fun ef => ef.isReadEnvVar || ef.isNetCall || ef.isWriteStdout) = true := by
  have hfil := filter_map_writeStdout Effect.isExternalWrite (fun _ => rfl)
  cases hc : sdk.construct (getenv env apiKeyVar) with
  | error e =>
    constructor <;>
      simp [run, hc, List.filter, Effect.isExternalWrite, Effect.isReadEnvVar]
  | ok u =>
    cases u
    cases hl : sdk.listModels (getenv env apiKeyVar) noParams with
    | error e =>
      constructor <;>
        simp [run, hc, hl, List.filter, Effect.isExternalWrite, Effect.isReadEnvVar,
          Effect.isNetCall]
    | ok resp =>
      constructor
      · simp [run, hc, hl, List.filter, Effect.isExternalWrite, hfil]
      · simp [run, hc, hl, Effect.isReadEnvVar, Effect.isNetCall]
        exact fun a _ => rfl

/-- C10: the iteration over the returned collection terminates and visits
each record exactly once, in order: for any finite record list whose
elements all carry an "id" key, the loop's visit trace is exactly the
list itself and one line is printed per record. -/
theorem printLoop_visits_each_record_once (rs : List ModelRecord)
    (h : ∀ r ∈ rs, (List.lookup "id" r).isSome = true) :
    (printLoop rs).2.1 = rs ∧ (printLoop rs).1.length = rs.length := by
  induction rs with
  | nil => exact ⟨rfl, rfl⟩
  | cons m rest ih =>
    have hm := h m (List.mem_cons_self m rest)
    have hrest : ∀ r ∈ rest, (List.lookup "id" r).isSome = true :=
      fun r hr => h r (List.mem_cons_of_mem m hr)
    obtain ⟨i, hi⟩ := Option.isSome_iff_exists.mp hm
    obtain ⟨v1, v2⟩ := ih hrest
    simp [printLoop, hi, v1, v2]

/-- Witness for C10: the loop over two concrete records visits both, in
order, and prints two lines. -/
theorem printLoop_visits_each_record_once_witness :
    (printLoop [opusRec, sonnetRec]).2.1 = [opusRec, sonnetRec] ∧
      (printLoop [opusRec, sonnetRec]).1.length = 2 :=
  printLoop_visits_each_record_once [opusRec, sonnetRec] (by decide)

end ListModels
